import Mathlib

/-!
Verification of the uNote workspace state core.

The store (src/src/hooks/store.ts) is a zustand store created with
`combine`/`persist`; its state object holds `currentFilePaths : string[]`,
`currentProjectPath : string`, `currentDirectoryPath : string`,
`showSide : bool`, `showAddItem : "file" | "folder" | false`,
`scrollMode : bool`, and exposes the raw `set` function as the single
mutation entry point.  `App.tsx` renders one panel per entry of
`currentFilePaths` with a separator before every panel except the first,
and also reads a `showInfo` flag.  This file embeds that state model,
the mutations visible in the sources, the panel-renderer projection, and
the persisted-slot round trip, and proves the specified properties.
-/

namespace UNote

/-- The `showAddItem` field of the store: `"file" | "folder" | false`
(store.ts), embedded as a three-valued inductive with `off` standing for
the JS literal `false`. -/
inductive AddItem where
  | file
  | folder
  | off
deriving DecidableEq, Repr

/-- The workspace state object of store.ts.  The `showInfo` field is read
by App.tsx (`useStore((s) => s.showInfo)`); it is absent from the
defaults in store.ts, where an unset JS field reads as `undefined` and is
treated as falsy, so it is embedded as a `Bool` defaulting to `false`
(the component that sets it is not among the given sources; its toggle is
modelled from the spec below). -/
structure WorkspaceState where
  currentFilePaths : List String
  currentProjectPath : String
  currentDirectoryPath : String
  showSide : Bool
  showInfo : Bool
  showAddItem : AddItem
  scrollMode : Bool
deriving DecidableEq, Repr

/-- The default state: the field initializers of store.ts (empty path
list, empty roots, all flags off). -/
def defaultState : WorkspaceState :=
  { currentFilePaths := []
    currentProjectPath := ""
    currentDirectoryPath := ""
    showSide := false
    showInfo := false
    showAddItem := .off
    scrollMode := false }

/-- A partial update as passed to the store's `set`: each field is either
named in the update object (`some v`) or absent (`none`). -/
structure Update where
  currentFilePaths : Option (List String) := none
  currentProjectPath : Option String := none
  currentDirectoryPath : Option String := none
  showSide : Option Bool := none
  showInfo : Option Bool := none
  showAddItem : Option AddItem := none
  scrollMode : Option Bool := none

/-- The store's `set` (store.ts): zustand shallow-merges the update
object into the state, so every field named in the update is replaced
and every other field is kept. -/
def setState (s : WorkspaceState) (u : Update) : WorkspaceState :=
  { currentFilePaths := u.currentFilePaths.getD s.currentFilePaths
    currentProjectPath := u.currentProjectPath.getD s.currentProjectPath
    currentDirectoryPath := u.currentDirectoryPath.getD s.currentDirectoryPath
    showSide := u.showSide.getD s.showSide
    showInfo := u.showInfo.getD s.showInfo
    showAddItem := u.showAddItem.getD s.showAddItem
    scrollMode := u.scrollMode.getD s.scrollMode }

/-- The separator's onClick in App.tsx:
`set({ currentFilePaths: [path] })` — the spec's `collapseTo(path)`. -/
def collapseTo (p : String) (s : WorkspaceState) : WorkspaceState :=
  setState s { currentFilePaths := some [p] }

/-- The sidebar toggle in TopBar: `set({ showSide: !showSide })`. -/
def toggleSidebar (s : WorkspaceState) : WorkspaceState :=
  setState s { showSide := some (!s.showSide) }

/-- Modelled from the spec: `toggleInfoPanel()` "flips the corresponding
boolean; no interaction with `openPaths`".  The component invoking it is
not among the given sources; App.tsx reads the flag as `s.showInfo`, so
the toggle is `set({ showInfo: !showInfo })`. -/
def toggleInfoPanel (s : WorkspaceState) : WorkspaceState :=
  setState s { showInfo := some (!s.showInfo) }

/-- Modelled from the spec: `toggleScrollMode()` "flips the corresponding
boolean; no interaction with `openPaths`".  The component invoking it is
not among the given sources; App.tsx reads the flag as `s.scrollMode`,
so the toggle is `set({ scrollMode: !scrollMode })`. -/
def toggleScrollMode (s : WorkspaceState) : WorkspaceState :=
  setState s { scrollMode := some (!s.scrollMode) }

/-- Modelled from the spec: `setProjectPath(path)` is "direct
assignment, used when the sidebar browser changes context; does not
touch `openPaths`" — `set({ currentProjectPath: path })`.  The invoking
component is not among the given sources. -/
def setProjectPath (p : String) (s : WorkspaceState) : WorkspaceState :=
  setState s { currentProjectPath := some p }

/-- Modelled from the spec: `setDirectoryPath(path)` is "direct
assignment ...; does not touch `openPaths`" —
`set({ currentDirectoryPath: path })`.  The invoking component is not
among the given sources. -/
def setDirectoryPath (p : String) (s : WorkspaceState) : WorkspaceState :=
  setState s { currentDirectoryPath := some p }

/-- Modelled from the spec: the open policy of `openFile`/`openDirectory`
(hooks/useFs, not among the given sources): "appends `path` to
`openPaths` if absent; if `path` is already present, moves it to the end
... rather than creating a duplicate entry". -/
def openPath (p : String) (l : List String) : List String :=
  if p ∈ l then l.erase p ++ [p] else l ++ [p]

/-- Modelled from the spec: `openFile(path)` applies the open policy to
`openPaths` and "does not alter `projectRoot`/`directoryRoot`" for a
file. -/
def openFile (p : String) (s : WorkspaceState) : WorkspaceState :=
  setState s { currentFilePaths := some (openPath p s.currentFilePaths) }

/-- Modelled from the spec: `openDirectory(path)` applies the same open
policy to `openPaths`, and for a directory "`directoryRoot` ... is set
to `path`". -/
def openDirectory (p : String) (s : WorkspaceState) : WorkspaceState :=
  setState s
    { currentFilePaths := some (openPath p s.currentFilePaths)
      currentDirectoryPath := some p }

/-- An open action: one `openFile` or `openDirectory` call. -/
inductive OpenOp where
  | file (p : String)
  | dir (p : String)
deriving DecidableEq, Repr

/-- Apply one open action to the state. -/
def applyOpen (s : WorkspaceState) : OpenOp → WorkspaceState
  | .file p => openFile p s
  | .dir p => openDirectory p s

/-- Run a sequence of `openFile`/`openDirectory` calls in order. -/
def runOpens (s : WorkspaceState) (ops : List OpenOp) : WorkspaceState :=
  ops.foldl applyOpen s

/-- One element of the rendered column: a separator control carrying the
path it collapses to, or an editable panel for a path. -/
inductive RenderItem where
  | sep (target : String)
  | panel (path : String)
deriving DecidableEq, Repr

/-- The panel renderer of App.tsx:
`filePaths.map((path, index) => ... index !== 0 && Separator ... FileOrfolder ...)`
— for each path, at index other than 0 a separator (collapsing to that
path) immediately followed by its panel, at index 0 the panel alone. -/
def renderPanels (paths : List String) : List RenderItem :=
  paths.enum.flatMap fun ip =>
    if ip.1 = 0 then [.panel ip.2] else [.sep ip.2, .panel ip.2]

/-- Activating a rendered item: a separator's onClick is
`set({ currentFilePaths: [path] })` (App.tsx); a panel itself mutates
nothing. -/
def activateItem (item : RenderItem) (s : WorkspaceState) : WorkspaceState :=
  match item with
  | .sep t => setState s { currentFilePaths := some [t] }
  | .panel _ => s

/-- The path of a rendered item when it is a panel. -/
def panelPathOf : RenderItem → Option String
  | .panel p => some p
  | .sep _ => none

/-- The collapse target of a rendered item when it is a separator. -/
def sepTargetOf : RenderItem → Option String
  | .sep t => some t
  | .panel _ => none

/-- The paths of the panels of a rendered column, in render order. -/
def panelPaths (items : List RenderItem) : List String :=
  items.filterMap panelPathOf

/-- The collapse targets of the separators of a rendered column, in
render order. -/
def sepTargets (items : List RenderItem) : List String :=
  items.filterMap sepTargetOf

/-- A JSON value, the shape of the persisted slot's contents. -/
inductive Json where
  | null
  | bool (b : Bool)
  | str (s : String)
  | arr (xs : List Json)
  | obj (fields : List (String × Json))

/-- Serialize the `showAddItem` field (`"file" | "folder" | false`). -/
def encodeAddItem : AddItem → Json
  | .file => .str "file"
  | .folder => .str "folder"
  | .off => .bool false

/-- Deserialize the `showAddItem` field. -/
def decodeAddItem : Json → Option AddItem
  | .str s => if s = "file" then some .file
              else if s = "folder" then some .folder
              else none
  | .bool false => some .off
  | _ => none

/-- Deserialize a JSON string. -/
def decodeStr : Json → Option String
  | .str s => some s
  | _ => none

/-- Deserialize a JSON boolean. -/
def decodeBool : Json → Option Bool
  | .bool b => some b
  | _ => none

/-- Deserialize a list of JSON strings. -/
def decodeStrs : List Json → Option (List String)
  | [] => some []
  | j :: js => do
      let s ← decodeStr j
      let rest ← decodeStrs js
      pure (s :: rest)

/-- Deserialize a JSON array of strings. -/
def decodeStrList : Json → Option (List String)
  | .arr xs => decodeStrs xs
  | _ => none

/-- Look a key up in a JSON object's field list (first match, as JS
property access on parsed JSON). -/
def jsonLookup (fields : List (String × Json)) (key : String) : Option Json :=
  match fields with
  | [] => none
  | (k, v) :: rest => if k = key then some v else jsonLookup rest key

/-- Read one field of the persisted state object: a missing field takes
its store.ts default (unknown fields are simply never looked up, so
extra fields are ignored); a present field must deserialize. -/
def decodeField {α : Type} (fields : List (String × Json)) (key : String)
    (dec : Json → Option α) (dflt : α) : Option α :=
  match jsonLookup fields key with
  | none => some dflt
  | some j => dec j

/-- Modelled from the spec: the persist middleware (the zustand library,
not part of this repository's sources) serializes the whole state object
into the named slot on every mutation.  Serialization is embedded at the
JSON-value level. -/
def encodeState (s : WorkspaceState) : Json :=
  .obj
    [("currentFilePaths", .arr (s.currentFilePaths.map .str)),
     ("currentProjectPath", .str s.currentProjectPath),
     ("currentDirectoryPath", .str s.currentDirectoryPath),
     ("showSide", .bool s.showSide),
     ("showInfo", .bool s.showInfo),
     ("showAddItem", encodeAddItem s.showAddItem),
     ("scrollMode", .bool s.scrollMode)]

/-- Modelled from the spec: deserializing the persisted slot.  A value
that is not an object, or an ill-typed present field, is a
deserialization error (`none`); missing fields default. -/
def decodeState : Json → Option WorkspaceState
  | .obj fields => do
      let fps ← decodeField fields "currentFilePaths" decodeStrList []
      let pp ← decodeField fields "currentProjectPath" decodeStr ""
      let dp ← decodeField fields "currentDirectoryPath" decodeStr ""
      let side ← decodeField fields "showSide" decodeBool false
      let info ← decodeField fields "showInfo" decodeBool false
      let add ← decodeField fields "showAddItem" decodeAddItem .off
      let scroll ← decodeField fields "scrollMode" decodeBool false
      pure
        { currentFilePaths := fps
          currentProjectPath := pp
          currentDirectoryPath := dp
          showSide := side
          showInfo := info
          showAddItem := add
          scrollMode := scroll }
  | _ => none

/-- Modelled from the spec: `save(state)` "serializes the full state and
writes it to the same named slot, replacing prior contents"; the result
is the slot's new contents. -/
def save (s : WorkspaceState) : Option Json :=
  some (encodeState s)

/-- Modelled from the spec: `load()` "reads a named durable slot; fails
soft — any deserialization error or missing slot yields the default
empty state, never an exception surfaced to the user". -/
def load : Option Json → WorkspaceState
  | none => defaultState
  | some j => (decodeState j).getD defaultState

end UNote

namespace UNote

lemma openPath_nodup {l : List String} (p : String) (h : l.Nodup) :
    (openPath p l).Nodup := by
  unfold openPath
  split
  · refine List.nodup_append.mpr ⟨h.erase p, List.nodup_singleton p, ?_⟩
    intro x hx hxp
    rw [List.mem_singleton] at hxp
    subst hxp
    exact h.not_mem_erase hx
  · rename_i hp
    refine List.nodup_append.mpr ⟨h, List.nodup_singleton p, ?_⟩
    intro x hx hxp
    rw [List.mem_singleton] at hxp
    subst hxp
    exact hp hx

lemma openPath_mem {l : List String} {x : String} (p : String) (h : x ∈ l) :
    x ∈ openPath p l := by
  unfold openPath
  split
  · by_cases hxp : x = p
    · subst hxp; simp
    · exact List.mem_append_left _ ((List.mem_erase_of_ne hxp).mpr h)
  · exact List.mem_append_left _ h

lemma openPath_of_append {l : List String} (p : String) (h : p ∉ l) :
    openPath p (l ++ [p]) = l ++ [p] := by
  unfold openPath
  rw [if_pos (by simp), List.erase_append_right _ h]
  simp

lemma openPath_idem {l : List String} (p : String) (h : l.Nodup) :
    openPath p (openPath p l) = openPath p l := by
  unfold openPath
  split
  · exact openPath_of_append p h.not_mem_erase
  · rename_i hp
    exact openPath_of_append p hp

lemma openPath_getLast (p : String) (l : List String) :
    (openPath p l).getLast? = some p := by
  unfold openPath
  split <;> simp [List.getLast?_append]

lemma openPath_length_of_mem {l : List String} {p : String} (h : p ∈ l) :
    (openPath p l).length = l.length := by
  unfold openPath
  rw [if_pos h]
  simp [List.length_erase_add_one h]

lemma renderPanels_enumFrom (n : Nat) (ps : List String) :
    ((ps.enumFrom (n + 1)).flatMap fun ip =>
        if ip.1 = 0 then [RenderItem.panel ip.2]
        else [RenderItem.sep ip.2, RenderItem.panel ip.2]) =
      ps.flatMap fun q => [RenderItem.sep q, RenderItem.panel q] := by
  induction ps generalizing n with
  | nil => rfl
  | cons q qs ih =>
    simp only [List.enumFrom, List.flatMap_cons]
    rw [if_neg (Nat.succ_ne_zero n), ih (n + 1)]

lemma renderPanels_cons_eq (p : String) (ps : List String) :
    renderPanels (p :: ps) =
      RenderItem.panel p :: ps.flatMap fun q => [RenderItem.sep q, RenderItem.panel q] := by
  unfold renderPanels
  rw [List.enum_cons]
  simp only [List.flatMap_cons, if_pos rfl]
  rw [renderPanels_enumFrom 0]
  rfl

lemma panelPaths_flat (ps : List String) :
    panelPaths (ps.flatMap fun q => [RenderItem.sep q, RenderItem.panel q]) = ps := by
  induction ps with
  | nil => rfl
  | cons q qs ih =>
    simp only [List.flatMap_cons, panelPaths, List.filterMap_append] at ih ⊢
    rw [ih]
    rfl

lemma sepTargets_flat (ps : List String) :
    sepTargets (ps.flatMap fun q => [RenderItem.sep q, RenderItem.panel q]) = ps := by
  induction ps with
  | nil => rfl
  | cons q qs ih =>
    simp only [List.flatMap_cons, sepTargets, List.filterMap_append] at ih ⊢
    rw [ih]
    rfl

lemma panelPaths_cons_panel (p : String) (items : List RenderItem) :
    panelPaths (RenderItem.panel p :: items) = p :: panelPaths items := by
  simp [panelPaths, List.filterMap_cons, panelPathOf]

lemma sepTargets_cons_panel (p : String) (items : List RenderItem) :
    sepTargets (RenderItem.panel p :: items) = sepTargets items := by
  simp [sepTargets, List.filterMap_cons, sepTargetOf]

lemma decodeStrs_map (l : List String) : decodeStrs (l.map .str) = some l := by
  induction l with
  | nil => rfl
  | cons a as ih => simp [decodeStrs, decodeStr, ih]

lemma decodeAddItem_encode (a : AddItem) : decodeAddItem (encodeAddItem a) = some a := by
  cases a <;> rfl


end UNote

namespace UNote

/-- A sample workspace with two open files, used by the witnesses. -/
def sampleState : WorkspaceState :=
  { defaultState with currentFilePaths := ["/a.txt", "/b.txt"] }

/-- A sample partial update naming only `showSide`, used by the
witnesses. -/
def sampleUpdate : Update :=
  { showSide := some true }

/-- C1: for every duplicate-free state and every path `p`, `openFile p`
(and `openDirectory p`) appends `p` to `openPaths` when absent, moves
`p` to the end without duplicating it when present (same length,
duplicate-free result, `p` last), and a second `openFile p` right after
leaves `openPaths` unchanged. -/
theorem openFile_open_policy (s : WorkspaceState) (p : String)
    (h : s.currentFilePaths.Nodup) :
    (p ∉ s.currentFilePaths →
      (openFile p s).currentFilePaths = s.currentFilePaths ++ [p]) ∧
    (p ∈ s.currentFilePaths →
      (openFile p s).currentFilePaths = s.currentFilePaths.erase p ++ [p] ∧
      (openFile p s).currentFilePaths.length = s.currentFilePaths.length) ∧
    (openFile p s).currentFilePaths.Nodup ∧
    (openFile p s).currentFilePaths.getLast? = some p ∧
    (openDirectory p s).currentFilePaths = (openFile p s).currentFilePaths ∧
    (openFile p (openFile p s)).currentFilePaths = (openFile p s).currentFilePaths := by
  refine ⟨fun hp => ?_, fun hp => ⟨?_, ?_⟩, ?_, ?_, rfl, ?_⟩
  · show openPath p s.currentFilePaths = _
    unfold openPath
    rw [if_neg hp]
  · show openPath p s.currentFilePaths = _
    unfold openPath
    rw [if_pos hp]
  · exact openPath_length_of_mem hp
  · exact openPath_nodup p h
  · exact openPath_getLast p _
  · show openPath p (openPath p s.currentFilePaths) = openPath p s.currentFilePaths
    exact openPath_idem p h

/-- Witness for C1 at `sampleState` and the already-open path
`"/a.txt"`. -/
theorem openFile_open_policy_witness :
    sampleState.currentFilePaths.Nodup ∧
    (("/a.txt" ∉ sampleState.currentFilePaths →
      (openFile "/a.txt" sampleState).currentFilePaths = sampleState.currentFilePaths ++ ["/a.txt"]) ∧
    ("/a.txt" ∈ sampleState.currentFilePaths →
      (openFile "/a.txt" sampleState).currentFilePaths = sampleState.currentFilePaths.erase "/a.txt" ++ ["/a.txt"] ∧
      (openFile "/a.txt" sampleState).currentFilePaths.length = sampleState.currentFilePaths.length) ∧
    (openFile "/a.txt" sampleState).currentFilePaths.Nodup ∧
    (openFile "/a.txt" sampleState).currentFilePaths.getLast? = some "/a.txt" ∧
    (openDirectory "/a.txt" sampleState).currentFilePaths = (openFile "/a.txt" sampleState).currentFilePaths ∧
    (openFile "/a.txt" (openFile "/a.txt" sampleState)).currentFilePaths = (openFile "/a.txt" sampleState).currentFilePaths) :=
  ⟨by decide, openFile_open_policy sampleState "/a.txt" (by decide)⟩

/-- C2: every sequence of `openFile`/`openDirectory` calls started from
a duplicate-free state keeps `openPaths` duplicate-free. -/
theorem opens_preserve_nodup (s : WorkspaceState) (ops : List OpenOp)
    (h : s.currentFilePaths.Nodup) :
    (runOpens s ops).currentFilePaths.Nodup := by
  induction ops generalizing s with
  | nil => exact h
  | cons op rest ih =>
    have h2 : (applyOpen s op).currentFilePaths.Nodup := by
      cases op <;> exact openPath_nodup _ h
    exact ih _ h2

/-- Witness for C2: a run with a repeated open from the empty default. -/
theorem opens_preserve_nodup_witness :
    defaultState.currentFilePaths.Nodup ∧
    (runOpens defaultState
      [.file "/a.txt", .dir "/docs", .file "/a.txt"]).currentFilePaths.Nodup :=
  ⟨by decide,
   opens_preserve_nodup defaultState [.file "/a.txt", .dir "/docs", .file "/a.txt"] (by decide)⟩

/-- C3: for every state and every `p` in `openPaths`, `collapseTo p`
leaves `openPaths` equal to the single-element sequence `[p]`. -/
theorem collapseTo_resets_openPaths (s : WorkspaceState) (p : String)
    (_h : p ∈ s.currentFilePaths) :
    (collapseTo p s).currentFilePaths = [p] := rfl

/-- Witness for C3 at `sampleState` and the open path `"/b.txt"`. -/
theorem collapseTo_resets_openPaths_witness :
    "/b.txt" ∈ sampleState.currentFilePaths ∧
    (collapseTo "/b.txt" sampleState).currentFilePaths = ["/b.txt"] :=
  ⟨by decide, collapseTo_resets_openPaths sampleState "/b.txt" (by decide)⟩

/-- C4: the renderer emits, for `openPaths = [p0, ..., pn]`, exactly the
n+1 panels in order (`panelPaths` recovers the list), a separator
immediately before every panel except the one at index 0 (the cons-shape
equation and the separator targets being `tail`), and activating the
separator before the panel for `p` performs `collapseTo p`. -/
theorem renderPanels_contract :
    renderPanels [] = [] ∧
    (∀ p ps, renderPanels (p :: ps) =
      RenderItem.panel p :: ps.flatMap fun q => [RenderItem.sep q, RenderItem.panel q]) ∧
    (∀ l, panelPaths (renderPanels l) = l) ∧
    (∀ l, (panelPaths (renderPanels l)).length = l.length) ∧
    (∀ l, sepTargets (renderPanels l) = l.tail) ∧
    (∀ t s, activateItem (RenderItem.sep t) s = collapseTo t s) := by
  have hp : ∀ l, panelPaths (renderPanels l) = l := by
    intro l
    cases l with
    | nil => rfl
    | cons p ps =>
      rw [renderPanels_cons_eq, panelPaths_cons_panel, panelPaths_flat]
  refine ⟨rfl, renderPanels_cons_eq, hp, fun l => by rw [hp], fun l => ?_, fun t s => rfl⟩
  cases l with
  | nil => rfl
  | cons p ps =>
    rw [renderPanels_cons_eq, sepTargets_cons_panel, sepTargets_flat]
    rfl

/-- C5: saving any state and loading it back returns the same state:
the persisted slot is lossless for every field. -/
theorem save_load_roundtrip (s : WorkspaceState) : load (save s) = s := by
  obtain ⟨fps, pp, dp, side, info, add, scroll⟩ := s
  simp [load, save, decodeState, encodeState, decodeField, jsonLookup,
        decodeStrList, decodeStrs_map, decodeAddItem_encode, decodeStr, decodeBool]

/-- C6: loading an absent slot, or any slot whose contents fail to
deserialize, yields the default empty workspace state (and `load` is a
total function, so no failure escapes to the caller). -/
theorem load_fails_soft :
    load none = defaultState ∧
    ∀ j, decodeState j = none → load (some j) = defaultState := by
  refine ⟨rfl, fun j h => ?_⟩
  simp [load, h]

/-- Witness for C6 at a corrupt slot holding a bare string. -/
theorem load_fails_soft_witness :
    decodeState (Json.str "corrupt") = none ∧
    load (some (Json.str "corrupt")) = defaultState :=
  ⟨rfl, load_fails_soft.2 (Json.str "corrupt") rfl⟩

/-- C7: the state carries the sidebar, info-panel and scroll-mode flags
as booleans; each toggle flips exactly its own boolean and leaves
`openPaths` and the other two booleans unchanged. -/
theorem toggles_flip_independent_booleans (s : WorkspaceState) :
    (toggleSidebar s).showSide = !s.showSide ∧
    (toggleInfoPanel s).showInfo = !s.showInfo ∧
    (toggleScrollMode s).scrollMode = !s.scrollMode ∧
    (toggleSidebar s).currentFilePaths = s.currentFilePaths ∧
    (toggleInfoPanel s).currentFilePaths = s.currentFilePaths ∧
    (toggleScrollMode s).currentFilePaths = s.currentFilePaths ∧
    (toggleSidebar s).showInfo = s.showInfo ∧
    (toggleSidebar s).scrollMode = s.scrollMode ∧
    (toggleInfoPanel s).showSide = s.showSide ∧
    (toggleInfoPanel s).scrollMode = s.scrollMode ∧
    (toggleScrollMode s).showSide = s.showSide ∧
    (toggleScrollMode s).showInfo = s.showInfo :=
  ⟨rfl, rfl, rfl, rfl, rfl, rfl, rfl, rfl, rfl, rfl, rfl, rfl⟩

/-- C8: toggling the sidebar twice restores `showSide`, and neither
application changes `openPaths`. -/
theorem toggleSidebar_involution (s : WorkspaceState) :
    (toggleSidebar (toggleSidebar s)).showSide = s.showSide ∧
    (toggleSidebar s).currentFilePaths = s.currentFilePaths ∧
    (toggleSidebar (toggleSidebar s)).currentFilePaths = s.currentFilePaths := by
  refine ⟨?_, rfl, rfl⟩
  show (!(!s.showSide)) = s.showSide
  exact Bool.not_not s.showSide

/-- C9: every mutation other than `collapseTo` keeps every previously
open path open: opening, the three toggles, and the two root setters
never remove an entry from `openPaths`. -/
theorem collapseTo_only_removal (s : WorkspaceState) (p x : String)
    (h : x ∈ s.currentFilePaths) :
    x ∈ (openFile p s).currentFilePaths ∧
    x ∈ (openDirectory p s).currentFilePaths ∧
    x ∈ (toggleSidebar s).currentFilePaths ∧
    x ∈ (toggleInfoPanel s).currentFilePaths ∧
    x ∈ (toggleScrollMode s).currentFilePaths ∧
    x ∈ (setProjectPath p s).currentFilePaths ∧
    x ∈ (setDirectoryPath p s).currentFilePaths :=
  ⟨openPath_mem p h, openPath_mem p h, h, h, h, h, h⟩

/-- Witness for C9 at `sampleState`, preserved path `"/a.txt"`, operand
path `"/c.txt"`. -/
theorem collapseTo_only_removal_witness :
    "/a.txt" ∈ sampleState.currentFilePaths ∧
    ("/a.txt" ∈ (openFile "/c.txt" sampleState).currentFilePaths ∧
    "/a.txt" ∈ (openDirectory "/c.txt" sampleState).currentFilePaths ∧
    "/a.txt" ∈ (toggleSidebar sampleState).currentFilePaths ∧
    "/a.txt" ∈ (toggleInfoPanel sampleState).currentFilePaths ∧
    "/a.txt" ∈ (toggleScrollMode sampleState).currentFilePaths ∧
    "/a.txt" ∈ (setProjectPath "/c.txt" sampleState).currentFilePaths ∧
    "/a.txt" ∈ (setDirectoryPath "/c.txt" sampleState).currentFilePaths) :=
  ⟨by decide, collapseTo_only_removal sampleState "/c.txt" "/a.txt" (by decide)⟩

/-- C10: the store's single `set` shallow-merges: every field not named
in the update is unchanged; in particular a separator collapse changes
only `currentFilePaths` and the sidebar toggle changes only
`showSide`. -/
theorem setState_shallow_merge_frame (s : WorkspaceState) (u : Update) (p : String) :
    (u.currentFilePaths = none → (setState s u).currentFilePaths = s.currentFilePaths) ∧
    (u.currentProjectPath = none → (setState s u).currentProjectPath = s.currentProjectPath) ∧
    (u.currentDirectoryPath = none → (setState s u).currentDirectoryPath = s.currentDirectoryPath) ∧
    (u.showSide = none → (setState s u).showSide = s.showSide) ∧
    (u.showInfo = none → (setState s u).showInfo = s.showInfo) ∧
    (u.showAddItem = none → (setState s u).showAddItem = s.showAddItem) ∧
    (u.scrollMode = none → (setState s u).scrollMode = s.scrollMode) ∧
    ((collapseTo p s).currentProjectPath = s.currentProjectPath ∧
     (collapseTo p s).currentDirectoryPath = s.currentDirectoryPath ∧
     (collapseTo p s).showSide = s.showSide ∧
     (collapseTo p s).showInfo = s.showInfo ∧
     (collapseTo p s).showAddItem = s.showAddItem ∧
     (collapseTo p s).scrollMode = s.scrollMode) ∧
    ((toggleSidebar s).currentFilePaths = s.currentFilePaths ∧
     (toggleSidebar s).currentProjectPath = s.currentProjectPath ∧
     (toggleSidebar s).currentDirectoryPath = s.currentDirectoryPath ∧
     (toggleSidebar s).showInfo = s.showInfo ∧
     (toggleSidebar s).showAddItem = s.showAddItem ∧
     (toggleSidebar s).scrollMode = s.scrollMode) := by
  refine ⟨?_, ?_, ?_, ?_, ?_, ?_, ?_,
    ⟨rfl, rfl, rfl, rfl, rfl, rfl⟩, ⟨rfl, rfl, rfl, rfl, rfl, rfl⟩⟩ <;>
    · intro h
      simp [setState, h]

/-- Witness for C10 at `sampleState` and an update naming only
`showSide`. -/
theorem setState_shallow_merge_frame_witness :
    (sampleUpdate.currentFilePaths = none ∧
      (setState sampleState sampleUpdate).currentFilePaths = sampleState.currentFilePaths) ∧
    (sampleUpdate.scrollMode = none ∧
      (setState sampleState sampleUpdate).scrollMode = sampleState.scrollMode) :=
  ⟨⟨rfl, (setState_shallow_merge_frame sampleState sampleUpdate "/a.txt").1 rfl⟩,
   ⟨rfl, (setState_shallow_merge_frame sampleState sampleUpdate "/a.txt").2.2.2.2.2.2.1 rfl⟩⟩

end UNote
